import Mathlib

set_option maxHeartbeats 1000000

/-!
A shallow embedding of the market state machine and outcome-resolution core of the
`amm` prediction-market contract (`src/amm/src/market.rs` and
`src/amm/src/market_creation.rs`).

Conventions:
* `u128` / `u64` / `u16` values are embedded as `Nat`.  Rust `u128` subtraction and
  division panic on underflow / division by zero; where that matters the computation
  is also given in a `checked` form returning `Option`, with `none` standing for the
  panic.  Signed numeric bounds and answers carry a separate magnitude and sign flag
  exactly as in the source (`NumberOutcomeTag`, `AnswerNumberType`).
* Contract entry points that can `panic!`/`assert!` are embedded as
  `Except String Market` (or `Except String Unit` for the pure guard prefixes), the
  error string being the source's panic message.
* Host facts (caller authorisation, pause flag, current time in milliseconds) are
  passed as explicit parameters.
-/

namespace AMM

/-- Outcome tag carrying a signed numeric bound (`NumberOutcomeTag` in market.rs):
a magnitude, a fixed-point multiplier and a sign flag. -/
structure NumberOutcomeTag where
  value : Nat
  multiplier : Nat
  negative : Bool

/-- An outcome descriptor: numeric bound for scalar markets or a label for
categorical markets (`OutcomeTag` in market.rs). -/
inductive OutcomeTag where
  | Number (num : NumberOutcomeTag)
  | String (s : String)

/-- A resolution source record attached to a market (metadata). -/
structure Source where
  end_point : String
  source_path : String

/-- Modelled from the spec: the `Pool` implementation (pool.rs) is not under src/.
Only the fields that market.rs reads are embedded: the outcome count
(`pool.outcomes`), the fixed-point scale of the collateral asset
(`pool.collateral_denomination`, e.g. 10^24), the collateral token account and the
swap fee. -/
structure Pool where
  outcomes : Nat
  collateral_denomination : Nat
  collateral_token_id : String
  swap_fee : Nat

/-- The `Market` record of market.rs: a pool plus resolution metadata and the
state-machine flags. -/
structure Market where
  end_time : Nat
  resolution_time : Nat
  pool : Pool
  outcome_tags : List OutcomeTag
  payout_numerator : Option (List Nat)
  finalized : Bool
  enabled : Bool
  is_scalar : Bool
  scalar_multiplier : Option Nat
  data_request_finalized : Bool
  challenge_period : Nat
  sources : List Source
  description : String
  extra_info : String
  payment_token : Option String
  validity_bond : Option Nat
  dr_creator : Option String

/-- A signed numeric oracle answer (`AnswerNumberType` of the oracle interface):
magnitude, multiplier and sign flag. -/
structure AnswerNumberType where
  value : Nat
  multiplier : Nat
  negative : Bool

/-- An oracle answer payload: numeric or categorical label (`AnswerType`). -/
inductive AnswerType where
  | Number (num : AnswerNumberType)
  | String (s : String)

/-- A finalized oracle outcome: an answer, or the invalid-market marker
(`Outcome` of the oracle interface). -/
inductive Outcome where
  | Answer (answer : AnswerType)
  | Invalid

/-- Checked `u128` subtraction: `none` models the Rust underflow panic. -/
def checked_sub (a b : Nat) : Option Nat :=
  if b ≤ a then some (a - b) else none

/-- Checked `u128` division: `none` models the Rust division-by-zero panic. -/
def checked_div (a b : Nat) : Option Nat :=
  if b = 0 then none else some (a / b)

/-- The payout-vector sum as computed by `resolute_market`
(`v.iter().fold(0, |s, &n| s + u128::from(n))`). -/
def payout_sum (v : List Nat) : Nat :=
  v.foldl (fun s n => s + n) 0

/-- Modelled from the spec: `clamp_u128` (a helper that is not under src/) clamps the
normalized answer into the bound range, spec section 4.2 step 3. -/
def clamp_u128 (value min_value max_value : Nat) : Nat :=
  if value < min_value then min_value
  else if max_value < value then max_value
  else value

/-- Modelled from the spec: `math::complex_div_u128` (math module not under src/).
Per spec section 4.2 step 4, `fractionUpper = (ub − ans) * collateralDenomination /
range` with integer (floor) division; the first argument is the fixed-point scale. -/
def complex_div_u128 (denomination numerator divisor : Nat) : Nat :=
  numerator * denomination / divisor

/-- Modelled from the spec: `math::complex_mul_u128` (math module not under src/).
Per spec section 4.2 step 4, `payoutShort = fractionUpper * collateralDenomination /
collateralDenomination`, a fixed-point product scaled back down by the
denomination, with integer (floor) division. -/
def complex_mul_u128 (denomination a b : Nat) : Nat :=
  a * b / denomination

/-- Modelled from the spec: `helper::flatten_outcome_tags` (helper.rs is not under
src/) renders one outcome tag as the string label the categorical resolver matches
against; a string tag flattens to its label, a numeric tag to a signed decimal
rendering of its magnitude. -/
def flatten_outcome_tag : OutcomeTag → String
  | OutcomeTag.String s => s
  | OutcomeTag.Number num => (if num.negative then "-" else "") ++ toString num.value

/-- Modelled from the spec: `helper::flatten_outcome_tags` maps every tag to its
string label (see `flatten_outcome_tag`). -/
def flatten_outcome_tags (outcome_tags : List OutcomeTag) : List String :=
  outcome_tags.map flatten_outcome_tag

/-- Rust's `Iterator::position`: index of the first element satisfying the
predicate, used by the categorical branch of `set_outcome`. -/
def position (p : String → Bool) : List String → Option Nat
  | [] => none
  | t :: rest => if p t then some 0 else (position p rest).map (· + 1)

/-- The sign-normalization prefix of `set_outcome`'s scalar branch
(market.rs lines 383-418): rewrites the signed lower bound, upper bound and answer
into one unsigned coordinate line, returning `(lower_bound, upper_bound,
answer_value)`.  `Nat` subtraction here is truncated; `scalar_normalize_checked`
models the Rust panics. -/
def scalar_normalize (lower_bound_tag upper_bound_tag : NumberOutcomeTag)
    (answer_info : AnswerNumberType) : Nat × Nat × Nat :=
  if lower_bound_tag.negative && upper_bound_tag.negative then
    let range := lower_bound_tag.value - upper_bound_tag.value
    let answer_value :=
      if answer_info.negative && decide (lower_bound_tag.value < answer_info.value) then 0
      else if !answer_info.negative then range
      else lower_bound_tag.value - answer_info.value
    (0, range, answer_value)
  else if lower_bound_tag.negative && !upper_bound_tag.negative then
    let upper_bound := upper_bound_tag.value + lower_bound_tag.value
    let answer_value :=
      if answer_info.negative && decide (lower_bound_tag.value < answer_info.value) then 0
      else answer_info.value + lower_bound_tag.value
    (0, upper_bound, answer_value)
  else if answer_info.negative && !lower_bound_tag.negative then
    (lower_bound_tag.value, upper_bound_tag.value, lower_bound_tag.value)
  else
    (lower_bound_tag.value, upper_bound_tag.value, answer_info.value)

/-- `scalar_normalize` with every `u128` subtraction checked: `none` marks an input
on which the Rust code would panic with an underflow. -/
def scalar_normalize_checked (lower_bound_tag upper_bound_tag : NumberOutcomeTag)
    (answer_info : AnswerNumberType) : Option (Nat × Nat × Nat) :=
  if lower_bound_tag.negative && upper_bound_tag.negative then
    (checked_sub lower_bound_tag.value upper_bound_tag.value).bind fun range =>
      (if answer_info.negative && decide (lower_bound_tag.value < answer_info.value) then
        some 0
      else if !answer_info.negative then
        some range
      else
        checked_sub lower_bound_tag.value answer_info.value).map fun answer_value =>
        (0, range, answer_value)
  else if lower_bound_tag.negative && !upper_bound_tag.negative then
    some (0, upper_bound_tag.value + lower_bound_tag.value,
      if answer_info.negative && decide (lower_bound_tag.value < answer_info.value) then 0
      else answer_info.value + lower_bound_tag.value)
  else if answer_info.negative && !lower_bound_tag.negative then
    some (lower_bound_tag.value, upper_bound_tag.value, lower_bound_tag.value)
  else
    some (lower_bound_tag.value, upper_bound_tag.value, answer_info.value)

/-- The interpolation suffix of `set_outcome`'s scalar branch
(market.rs lines 420-428), applied to the normalized `(lower_bound, upper_bound,
answer_value)` triple. -/
def scalar_tail (n : Nat × Nat × Nat) (collateral_denomination : Nat) : List Nat :=
  let pointer_value := clamp_u128 n.2.2 n.1 n.2.1
  let range := n.2.1 - n.1
  let percentage_upper_bound :=
    complex_div_u128 collateral_denomination (n.2.1 - pointer_value) range
  let payout_short :=
    complex_mul_u128 collateral_denomination percentage_upper_bound collateral_denomination
  [payout_short, collateral_denomination - payout_short]

/-- `scalar_tail` with every `u128` subtraction and division checked. -/
def scalar_tail_checked (n : Nat × Nat × Nat) (collateral_denomination : Nat) :
    Option (List Nat) :=
  let pointer_value := clamp_u128 n.2.2 n.1 n.2.1
  (checked_sub n.2.1 n.1).bind fun range =>
    (checked_sub n.2.1 pointer_value).bind fun diff =>
      (checked_div (diff * collateral_denomination) range).bind fun percentage_upper_bound =>
        (checked_div (percentage_upper_bound * collateral_denomination)
            collateral_denomination).bind fun payout_short =>
          (checked_sub collateral_denomination payout_short).map fun remainder =>
            [payout_short, remainder]

/-- The full scalar payout-numerator computation of `set_outcome`
(market.rs lines 383-428). -/
def scalar_payout_numerator (lower_bound_tag upper_bound_tag : NumberOutcomeTag)
    (answer_info : AnswerNumberType) (collateral_denomination : Nat) : List Nat :=
  scalar_tail (scalar_normalize lower_bound_tag upper_bound_tag answer_info)
    collateral_denomination

/-- The full scalar payout-numerator computation with `u128` panics modelled as
`none`. -/
def scalar_payout_numerator_checked (lower_bound_tag upper_bound_tag : NumberOutcomeTag)
    (answer_info : AnswerNumberType) (collateral_denomination : Nat) :
    Option (List Nat) :=
  (scalar_normalize_checked lower_bound_tag upper_bound_tag answer_info).bind fun n =>
    scalar_tail_checked n collateral_denomination

/-- The oracle answer-submission entry point `set_outcome` (market.rs lines 357-459),
restricted to its effect on the targeted market.  `is_oracle` models
`assert_oracle` (caller must be the oracle account; the assertion lives in a file
not under src/).  The trailing validity-bond transfer is an external settlement
effect (spec section 6) and is not part of the market state change. -/
def set_outcome (m : Market) (outcome : Outcome) (is_oracle : Bool) :
    Except String Market :=
  if !is_oracle then Except.error "ERR_INVALID_ORACLE"
  else
    match outcome with
    | Outcome.Answer answer =>
      if m.is_scalar then
        match m.outcome_tags[0]? with
        | none => Except.error "ERR_WRONG_OUTCOME"
        | some (OutcomeTag.String _) => Except.error "ERR_WRONG_OUTCOME"
        | some (OutcomeTag.Number lower_bound_tag) =>
          match m.outcome_tags[1]? with
          | none => Except.error "ERR_WRONG_OUTCOME"
          | some (OutcomeTag.String _) => Except.error "ERR_WRONG_OUTCOME"
          | some (OutcomeTag.Number upper_bound_tag) =>
            match answer with
            | AnswerType.String _ => Except.error "ERR_NUMBER_EXPECTED"
            | AnswerType.Number answer_info =>
              match scalar_payout_numerator_checked lower_bound_tag upper_bound_tag
                  answer_info m.pool.collateral_denomination with
              | none => Except.error "ERR_U128_PANIC"
              | some pn =>
                Except.ok { m with payout_numerator := some pn,
                                   data_request_finalized := true }
      else
        match answer with
        | AnswerType.Number _ => Except.error "ERR_STRING_EXPECTED"
        | AnswerType.String answer_string =>
          match position (fun tag => tag == answer_string)
              (flatten_outcome_tags m.outcome_tags) with
          | none => Except.error "ERR_OUTCOME_NOT_IN_TAGS"
          | some index =>
            Except.ok { m with
              payout_numerator :=
                some ((List.replicate m.outcome_tags.length 0).set index
                  m.pool.collateral_denomination),
              data_request_finalized := true }
    | Outcome.Invalid =>
      Except.ok { m with payout_numerator := none, data_request_finalized := true }

/-- The governance/permissionless resolution entry point `resolute_market`
(market.rs lines 321-355).  `is_gov` models `assert_gov` (the assertion lives in a
file not under src/). -/
def resolute_market (m : Market) (payout_numerator : Option (List Nat))
    (is_gov : Bool) : Except String Market :=
  if !m.enabled then Except.error "ERR_DISABLED_MARKET"
  else if m.finalized then Except.error "ERR_IS_FINALIZED"
  else if payout_numerator.isSome && !is_gov then Except.error "ERR_NO_GOVERNANCE"
  else if !payout_numerator.isSome && !m.data_request_finalized then
    Except.error "ERR_DATA_REQUEST_NOT_FINALIZED"
  else
    match payout_numerator with
    | some v =>
      if payout_sum v ≠ m.pool.collateral_denomination then
        Except.error "ERR_INVALID_PAYOUT_SUM"
      else if v.length ≠ m.pool.outcomes then Except.error "ERR_INVALID_NUMERATOR"
      else Except.ok { m with payout_numerator := some v, finalized := true }
    | none => Except.ok { m with payout_numerator := none, finalized := true }

/-- The assert prefix of `sell` (market.rs lines 195-214): contract not paused,
market exists and is enabled, not finalized, and trading has not ended
(`market.end_time > ns_to_ms(env::block_timestamp())`; `now_ms` is the block time
already converted to milliseconds). -/
def sell_checks (paused : Bool) (m : Market) (now_ms : Nat) : Except String Unit :=
  if paused then Except.error "ERR_PAUSED"
  else if !m.enabled then Except.error "ERR_DISABLED_MARKET"
  else if m.finalized then Except.error "ERR_FINALIZED_MARKET"
  else if m.end_time ≤ now_ms then Except.error "ERR_MARKET_ENDED"
  else Except.ok ()

/-- The assert prefix of `buy` (market.rs lines 556-566); `collateral_ok` models
`assert_collateral_token` (the caller of the transfer hook must be the market's
collateral token; the assertion lives in a file not under src/). -/
def buy_checks (m : Market) (now_ms : Nat) (collateral_ok : Bool) :
    Except String Unit :=
  if !m.enabled then Except.error "ERR_DISABLED_MARKET"
  else if m.finalized then Except.error "ERR_FINALIZED_MARKET"
  else if m.end_time ≤ now_ms then Except.error "ERR_MARKET_ENDED"
  else if !collateral_ok then Except.error "ERR_WRONG_COLLATERAL"
  else Except.ok ()

/-- The assert prefix of `add_liquidity` (market.rs lines 517-538). -/
def add_liquidity_checks (m : Market) (now_ms : Nat) (collateral_ok : Bool) :
    Except String Unit :=
  if !m.enabled then Except.error "ERR_DISABLED_MARKET"
  else if m.finalized then Except.error "ERR_FINALIZED_MARKET"
  else if m.end_time ≤ now_ms then Except.error "ERR_MARKET_ENDED"
  else if !collateral_ok then Except.error "ERR_WRONG_COLLATERAL"
  else Except.ok ()

/-- The assert prefix of `burn_outcome_tokens_redeem_collateral`
(market.rs lines 236-247): enabled and not finalized; there is no end-time
assertion in the source. -/
def burn_checks (paused : Bool) (m : Market) : Except String Unit :=
  if paused then Except.error "ERR_PAUSED"
  else if !m.enabled then Except.error "ERR_DISABLED_MARKET"
  else if m.finalized then Except.error "ERR_MARKET_FINALIZED"
  else Except.ok ()

/-- The assert prefix of `exit_pool` (market.rs lines 278-296): only the enabled
flag is asserted; there is no finalized or end-time assertion in the source. -/
def exit_pool_checks (paused : Bool) (m : Market) : Except String Unit :=
  if paused then Except.error "ERR_PAUSED"
  else if !m.enabled then Except.error "ERR_DISABLED_MARKET"
  else Except.ok ()

/-- The assert prefix of `claim_earnings` (market.rs lines 466-474): enabled and
finalized. -/
def claim_earnings_checks (paused : Bool) (m : Market) : Except String Unit :=
  if paused then Except.error "ERR_PAUSED"
  else if !m.enabled then Except.error "ERR_DISABLED_MARKET"
  else if !m.finalized then Except.error "ERR_NOT_FINALIZED"
  else Except.ok ()

/-- Arguments of `create_market` (market_creation.rs). -/
structure CreateMarketArgs where
  description : String
  extra_info : String
  outcomes : Nat
  outcome_tags : List OutcomeTag
  categories : List String
  end_time : Nat
  resolution_time : Nat
  collateral_token_id : String
  swap_fee : Nat
  challenge_period : Nat
  is_scalar : Bool
  scalar_multiplier : Option Nat
  sources : List Source

/-- Modelled from the spec: `pool_factory::new_pool` (not under src/) creates the
pool with the given outcome count and a collateral denomination of
`10 ^ token_decimals` (spec section 3: the scale of the collateral asset,
e.g. 10^24). -/
def new_pool (outcomes : Nat) (collateral_token_id : String) (token_decimals : Nat)
    (swap_fee : Nat) : Pool :=
  { outcomes := outcomes
    collateral_denomination := 10 ^ token_decimals
    collateral_token_id := collateral_token_id
    swap_fee := swap_fee }

/-- The `Market` record built at the end of `create_market`
(market_creation.rs lines 78-93). -/
def mk_market (payload : CreateMarketArgs) (token_decimals : Nat) : Market :=
  { end_time := payload.end_time
    resolution_time := payload.resolution_time
    pool := new_pool payload.outcomes payload.collateral_token_id token_decimals
      payload.swap_fee
    outcome_tags := payload.outcome_tags
    payout_numerator := none
    finalized := false
    enabled := true
    is_scalar := payload.is_scalar
    scalar_multiplier := payload.scalar_multiplier
    data_request_finalized := false
    challenge_period := payload.challenge_period
    sources := payload.sources
    description := payload.description
    extra_info := payload.extra_info
    payment_token := none
    validity_bond := none
    dr_creator := none }

/-- The validation chain of `create_market` (market_creation.rs lines 24-100)
after the collateral-whitelist lookup has succeeded with `decimals`; under the
`outcome_tags.len() == 2` guard the source's `get(0)/get(1).unwrap()` pair is
embedded as a two-element list match. -/
def create_market_validated (payload : CreateMarketArgs) (now_ms : Nat)
    (decimals : Nat) : Except String Market :=
    if payload.outcome_tags.length ≠ payload.outcomes then
      Except.error "ERR_INVALID_TAG_LENGTH"
    else if payload.end_time ≤ now_ms then Except.error "ERR_INVALID_END_TIME"
    else if payload.resolution_time < payload.end_time then
      Except.error "ERR_INVALID_RESOLUTION_TIME"
    else if payload.is_scalar then
      if payload.scalar_multiplier.isNone then Except.error "ERR_NO_MULTIPLIER"
      else if payload.outcome_tags.length ≠ 2 then Except.error "ERR_MAX_2_OUTCOMES"
      else
        match payload.outcome_tags with
        | [OutcomeTag.Number lower_bound_tag, OutcomeTag.Number upper_bound_tag] =>
          if lower_bound_tag.negative && decide (lower_bound_tag.value = 0) then
            Except.error "ERR_NEGATIVE_ZERO"
          else if upper_bound_tag.negative && decide (upper_bound_tag.value = 0) then
            Except.error "ERR_NEGATIVE_ZERO"
          else if !lower_bound_tag.negative && !upper_bound_tag.negative then
            if lower_bound_tag.value < upper_bound_tag.value then
              Except.ok (mk_market payload decimals)
            else Except.error "ERR_WRONG_BOUNDS"
          else if !lower_bound_tag.negative && upper_bound_tag.negative then
            Except.error "ERR_WRONG_BOUNDS"
          else if lower_bound_tag.negative && upper_bound_tag.negative then
            if upper_bound_tag.value < lower_bound_tag.value then
              Except.ok (mk_market payload decimals)
            else Except.error "ERR_WRONG_BOUNDS"
          else Except.ok (mk_market payload decimals)
        | _ => Except.error "ERR_NON_NUMBER"
    else Except.ok (mk_market payload decimals)

/-- The market-creation entry point `create_market` (market_creation.rs lines
24-100).  `token_decimals` is the whitelist lookup result for the collateral
token (`assert!(token_decimals.is_some(), "ERR_INVALID_COLLATERAL")`). -/
def create_market (payload : CreateMarketArgs) (now_ms : Nat)
    (token_decimals : Option Nat) : Except String Market :=
  match token_decimals with
  | none => Except.error "ERR_INVALID_COLLATERAL"
  | some decimals => create_market_validated payload now_ms decimals

/-- The scalar-bound validity conditions asserted by `create_market`
(market_creation.rs lines 55-65): no negative zero, and a legal sign pair with the
lower bound numerically below the upper bound. -/
def valid_scalar_bounds (lower_bound_tag upper_bound_tag : NumberOutcomeTag) : Bool :=
  !(lower_bound_tag.negative && decide (lower_bound_tag.value = 0)) &&
  !(upper_bound_tag.negative && decide (upper_bound_tag.value = 0)) &&
  (if !lower_bound_tag.negative && !upper_bound_tag.negative then
    decide (lower_bound_tag.value < upper_bound_tag.value)
  else if !lower_bound_tag.negative && upper_bound_tag.negative then
    false
  else if lower_bound_tag.negative && upper_bound_tag.negative then
    decide (upper_bound_tag.value < lower_bound_tag.value)
  else
    true)

/-- Spec section 3 and section 8 payout invariant: whenever a payout numerator is
present it has one entry per outcome and its entries sum exactly to the pool's
collateral denomination. -/
def numerator_invariant (m : Market) : Prop :=
  ∀ v, m.payout_numerator = some v →
    payout_sum v = m.pool.collateral_denomination ∧ v.length = m.pool.outcomes

/-- The facts `create_market` establishes about every market record it stores:
one tag per outcome, a positive collateral denomination, and for scalar markets
exactly two numeric tags satisfying `valid_scalar_bounds`. -/
def market_valid (m : Market) : Prop :=
  m.outcome_tags.length = m.pool.outcomes ∧
  0 < m.pool.collateral_denomination ∧
  (m.is_scalar = true → ∃ lt ut, m.outcome_tags = [OutcomeTag.Number lt, OutcomeTag.Number ut]
    ∧ valid_scalar_bounds lt ut = true)

end AMM

namespace AMM

/-- The collateral denomination used throughout the repository's tests
(a 24-decimal token). -/
def test_denomination : Nat := 1000000000000000000000000

/-- The categorical YES/NO market of the repository test
`valid_categorical_outcome`. -/
def test_categorical_market : Market :=
  { end_time := 1609951265967
    resolution_time := 1619882574000
    pool := { outcomes := 2, collateral_denomination := test_denomination,
              collateral_token_id := "token.near", swap_fee := 20000000000000000000000 }
    outcome_tags := [OutcomeTag.String "YES", OutcomeTag.String "NO"]
    payout_numerator := none
    finalized := false
    enabled := true
    is_scalar := false
    scalar_multiplier := none
    data_request_finalized := false
    challenge_period := 1
    sources := []
    description := ""
    extra_info := ""
    payment_token := none
    validity_bond := none
    dr_creator := none }

/-- The both-negative scalar market of the repository tests `full_negative_scalar*`
(bounds -200 and -100). -/
def test_both_negative_market : Market :=
  { test_categorical_market with
    outcome_tags := [OutcomeTag.Number { value := 200, multiplier := 1, negative := true },
                     OutcomeTag.Number { value := 100, multiplier := 1, negative := true }]
    is_scalar := true
    scalar_multiplier := some 1 }

/-- The non-negative scalar market of the repository test
`valid_scalar_outcome_price_over_upper_bound` (bounds 0 and 50). -/
def test_positive_market : Market :=
  { test_categorical_market with
    outcome_tags := [OutcomeTag.Number { value := 0, multiplier := 1, negative := false },
                     OutcomeTag.Number { value := 50, multiplier := 1, negative := false }]
    is_scalar := true
    scalar_multiplier := some 1 }

/-- A market that has already been finalized with a full payout to the first
outcome. -/
def resolved_market : Market :=
  { test_categorical_market with
    finalized := true
    payout_numerator := some [test_denomination, 0]
    data_request_finalized := true }

/-- Creation arguments for a valid non-negative scalar market (bounds 50 and 100,
mirroring the repository test `valid_positive_market`). -/
def test_positive_args : CreateMarketArgs :=
  { description := ""
    extra_info := ""
    outcomes := 2
    outcome_tags := [OutcomeTag.Number { value := 50, multiplier := 1, negative := false },
                     OutcomeTag.Number { value := 100, multiplier := 1, negative := false }]
    categories := ["", ""]
    end_time := 1609951265967
    resolution_time := 1619882574000
    collateral_token_id := "token.near"
    swap_fee := 20000000000000000000000
    challenge_period := 1
    is_scalar := true
    scalar_multiplier := some 1
    sources := [] }

end AMM

namespace AMM

lemma checked_sub_of_le {a b : Nat} (h : b ≤ a) : checked_sub a b = some (a - b) := by
  simp [checked_sub, h]

lemma checked_sub_eq_some {a b c : Nat} (h : checked_sub a b = some c) :
    b ≤ a ∧ c = a - b := by
  unfold checked_sub at h
  split at h
  · exact ⟨by assumption, (Option.some.injEq _ _ ▸ h).symm⟩
  · cases h

lemma checked_div_of_pos {a b : Nat} (h : 0 < b) : checked_div a b = some (a / b) := by
  simp [checked_div, Nat.pos_iff_ne_zero.mp h]

lemma clamp_u128_mem {lo hi : Nat} (v : Nat) (h : lo ≤ hi) :
    lo ≤ clamp_u128 v lo hi ∧ clamp_u128 v lo hi ≤ hi := by
  unfold clamp_u128
  split_ifs <;> omega

lemma mul_div_le_of_le {u r : Nat} (d : Nat) (hur : u ≤ r) (hr : 0 < r) :
    u * d / r ≤ d := by
  calc u * d / r ≤ r * d / r := Nat.div_le_div_right (Nat.mul_le_mul_right d hur)
    _ = d := Nat.mul_div_cancel_left d hr

lemma scalar_tail_total (n : Nat × Nat × Nat) (d : Nat) (h : n.1 < n.2.1)
    (hd : 0 < d) :
    scalar_tail_checked n d = some (scalar_tail n d) ∧
    ∀ x ∈ scalar_tail n d, x ≤ d := by
  obtain ⟨lb, ub, ans⟩ := n
  simp only at h
  have hmem := clamp_u128_mem ans (le_of_lt h)
  have hr : 0 < ub - lb := by omega
  have hdiff : ub - clamp_u128 ans lb ub ≤ ub - lb := by omega
  have hperc : (ub - clamp_u128 ans lb ub) * d / (ub - lb) ≤ d :=
    mul_div_le_of_le d hdiff hr
  have hps : (ub - clamp_u128 ans lb ub) * d / (ub - lb) * d / d ≤ d := by
    rw [Nat.mul_div_cancel _ hd]
    exact hperc
  constructor
  · simp only [scalar_tail_checked, scalar_tail, complex_div_u128, complex_mul_u128]
    rw [checked_sub_of_le (le_of_lt h),
      checked_sub_of_le (le_trans hmem.2 (le_refl ub))]
    simp only [Option.some_bind]
    rw [checked_div_of_pos hr]
    simp only [Option.some_bind]
    rw [checked_div_of_pos hd]
    simp only [Option.some_bind]
    rw [checked_sub_of_le hps]
    rfl
  · simp only [scalar_tail, complex_div_u128, complex_mul_u128, List.mem_cons,
      List.not_mem_nil, or_false]
    intro x hx
    rcases hx with rfl | rfl
    · exact hps
    · exact Nat.sub_le _ _

end AMM

namespace AMM

lemma valid_scalar_bounds_cases {lt ut : NumberOutcomeTag}
    (hv : valid_scalar_bounds lt ut = true) :
    (lt.negative = true → 0 < lt.value) ∧
    (ut.negative = true → 0 < ut.value) ∧
    (lt.negative = false → ut.negative = false ∧ lt.value < ut.value) ∧
    (lt.negative = true → ut.negative = true → ut.value < lt.value) := by
  unfold valid_scalar_bounds at hv
  cases hln : lt.negative <;> cases hun : ut.negative <;>
    simp [hln, hun] at hv ⊢ <;> omega

lemma scalar_normalize_total (lt ut : NumberOutcomeTag) (ai : AnswerNumberType)
    (hv : valid_scalar_bounds lt ut = true) :
    scalar_normalize_checked lt ut ai = some (scalar_normalize lt ut ai) ∧
    (scalar_normalize lt ut ai).1 < (scalar_normalize lt ut ai).2.1 := by
  obtain ⟨hlz, huz, hpos, hneg⟩ := valid_scalar_bounds_cases hv
  cases hln : lt.negative <;> cases hun : ut.negative
  · -- both non-negative
    obtain ⟨-, hlu⟩ := hpos hln
    cases han : ai.negative <;>
      simp [scalar_normalize, scalar_normalize_checked, hln, hun, han, hlu]
  · -- lower non-negative, upper negative: excluded by validity
    obtain ⟨hcontra, -⟩ := hpos hln
    rw [hun] at hcontra
    cases hcontra
  · -- lower negative, upper non-negative
    have hl0 : 0 < lt.value := hlz hln
    cases han : ai.negative <;>
      simp [scalar_normalize, scalar_normalize_checked, hln, hun, han] <;> omega
  · -- both negative
    have hul : ut.value < lt.value := hneg hln hun
    have hrange : checked_sub lt.value ut.value = some (lt.value - ut.value) :=
      checked_sub_of_le (le_of_lt hul)
    cases han : ai.negative
    · simp [scalar_normalize, scalar_normalize_checked, hln, hun, han, hrange]
      omega
    · by_cases hla : lt.value < ai.value
      · simp [scalar_normalize, scalar_normalize_checked, hln, hun, han, hla, hrange]
        omega
      · have hsub : checked_sub lt.value ai.value = some (lt.value - ai.value) :=
          checked_sub_of_le (by omega)
        simp [scalar_normalize, scalar_normalize_checked, hln, hun, han, hla,
          hrange, hsub]
        omega

lemma scalar_total_aux (lt ut : NumberOutcomeTag) (ai : AnswerNumberType) (d : Nat)
    (hv : valid_scalar_bounds lt ut = true) (hd : 0 < d) :
    (scalar_normalize lt ut ai).1 < (scalar_normalize lt ut ai).2.1 ∧
    scalar_payout_numerator_checked lt ut ai d =
      some (scalar_payout_numerator lt ut ai d) ∧
    ∀ x ∈ scalar_payout_numerator lt ut ai d, x ≤ d := by
  obtain ⟨hnc, hlt⟩ := scalar_normalize_total lt ut ai hv
  obtain ⟨ht1, ht2⟩ := scalar_tail_total (scalar_normalize lt ut ai) d hlt hd
  refine ⟨hlt, ?_, ht2⟩
  simp only [scalar_payout_numerator_checked, scalar_payout_numerator, hnc,
    Option.some_bind, ht1]

end AMM

namespace AMM

lemma position_lt_length {p : String → Bool} {l : List String} {i : Nat}
    (h : position p l = some i) : i < l.length := by
  induction l generalizing i with
  | nil => simp [position] at h
  | cons a t ih =>
    by_cases hp : p a
    · simp [position, hp] at h
      simp [← h]
    · simp [position, hp, Option.map_eq_some'] at h
      obtain ⟨j, hj, rfl⟩ := h
      have := ih hj
      simp
      omega

lemma foldl_add_shift (l : List Nat) :
    ∀ acc : Nat, l.foldl (fun s n => s + n) acc = acc + l.foldl (fun s n => s + n) 0 := by
  induction l with
  | nil => intro acc; simp
  | cons a t ih =>
    intro acc
    simp only [List.foldl_cons]
    rw [ih (acc + a), ih (0 + a)]
    omega

lemma payout_sum_cons (a : Nat) (l : List Nat) :
    payout_sum (a :: l) = a + payout_sum l := by
  unfold payout_sum
  simp only [List.foldl_cons]
  rw [foldl_add_shift l (0 + a)]
  omega

lemma payout_sum_replicate_zero (n : Nat) :
    payout_sum (List.replicate n (0 : Nat)) = 0 := by
  induction n with
  | zero => rfl
  | succ n ih => simp [List.replicate_succ, payout_sum_cons, ih]

lemma payout_sum_one_hot (n i d : Nat) (h : i < n) :
    payout_sum ((List.replicate n (0 : Nat)).set i d) = d := by
  induction n generalizing i with
  | zero => omega
  | succ n ih =>
    cases i with
    | zero =>
      simp [List.replicate_succ, payout_sum_cons, payout_sum_replicate_zero]
    | succ j =>
      simp only [List.replicate_succ, List.set_cons_succ, payout_sum_cons]
      rw [ih j (by omega)]
      omega

lemma one_hot_length (n i d : Nat) :
    ((List.replicate n (0 : Nat)).set i d).length = n := by
  simp

lemma one_hot_get_self (n i d : Nat) (h : i < n) :
    ((List.replicate n (0 : Nat)).set i d)[i]? = some d := by
  induction n generalizing i with
  | zero => omega
  | succ n ih =>
    cases i with
    | zero => simp [List.replicate_succ]
    | succ j =>
      simp only [List.replicate_succ, List.set_cons_succ, List.getElem?_cons_succ]
      exact ih j (by omega)

lemma one_hot_get_other (n i j d : Nat) (hj : j < n) (hne : j ≠ i) :
    ((List.replicate n (0 : Nat)).set i d)[j]? = some 0 := by
  induction n generalizing i j with
  | zero => omega
  | succ n ih =>
    cases i with
    | zero =>
      cases j with
      | zero => omega
      | succ j2 =>
        have hj2 : j2 < n := by omega
        simp only [List.replicate_succ, List.set_cons_zero, List.getElem?_cons_succ]
        simp [List.getElem?_replicate, hj2]
    | succ i2 =>
      cases j with
      | zero => simp [List.replicate_succ]
      | succ j2 =>
        simp only [List.replicate_succ, List.set_cons_succ, List.getElem?_cons_succ]
        exact ih i2 j2 (by omega) (by omega)

lemma checked_shape {lt ut : NumberOutcomeTag} {ai : AnswerNumberType} {d : Nat}
    {pn : List Nat}
    (h : scalar_payout_numerator_checked lt ut ai d = some pn) :
    ∃ ps, ps ≤ d ∧ pn = [ps, d - ps] := by
  simp only [scalar_payout_numerator_checked, scalar_tail_checked] at h
  rcases Option.bind_eq_some.mp h with ⟨n, -, h2⟩
  rcases Option.bind_eq_some.mp h2 with ⟨range, -, h3⟩
  rcases Option.bind_eq_some.mp h3 with ⟨diff, -, h4⟩
  rcases Option.bind_eq_some.mp h4 with ⟨perc, -, h5⟩
  rcases Option.bind_eq_some.mp h5 with ⟨ps, -, h6⟩
  rcases Option.map_eq_some'.mp h6 with ⟨rem, hrem, rfl⟩
  obtain ⟨hle, rfl⟩ := checked_sub_eq_some hrem
  exact ⟨ps, hle, rfl⟩

end AMM

namespace AMM

/-- C1: for every market satisfying the facts `create_market` establishes
(`market_valid`), any successful resolution — `resolute_market` with a
governance-supplied vector or `set_outcome` with a categorical or scalar oracle
answer — leaves a market whose stored payout numerator, when present, has length
equal to the pool's outcome count and elements summing exactly to the pool's
collateral denomination, with no rounding remainder. -/
theorem finalized_numerator_sums_to_denomination (m : Market) (hm : market_valid m) :
    (∀ pn g m2, resolute_market m pn g = Except.ok m2 → numerator_invariant m2) ∧
    (∀ o orc m2, set_outcome m o orc = Except.ok m2 → numerator_invariant m2) := by
  obtain ⟨hlen, hden, hscalar⟩ := hm
  constructor
  · intro pn g m2 hok
    unfold resolute_market at hok
    split at hok
    · cases hok
    split at hok
    · cases hok
    split at hok
    · cases hok
    split at hok
    · cases hok
    split at hok
    · rename_i v
      split at hok
      · cases hok
      rename_i hsum
      split at hok
      · cases hok
      rename_i hlen2
      cases hok
      intro w hw
      simp only [Option.some.injEq] at hw
      subst hw
      exact ⟨not_not.mp hsum, not_not.mp hlen2⟩
    · cases hok
      intro w hw
      simp at hw
  · intro o orc m2 hok
    unfold set_outcome at hok
    split at hok
    · cases hok
    split at hok
    · -- an oracle answer
      rename_i answer
      split at hok
      · -- scalar market
        rename_i hsc
        obtain ⟨lt, ut, htags, hv⟩ := hscalar hsc
        rw [htags] at hok
        simp only [List.getElem?_cons_zero, List.getElem?_cons_succ] at hok
        split at hok
        · cases hok
        rename_i answer_info
        split at hok
        · cases hok
        rename_i pn hchk
        cases hok
        intro w hw
        simp only [Option.some.injEq] at hw
        subst hw
        obtain ⟨ps, hle, rfl⟩ := checked_shape hchk
        refine ⟨?_, ?_⟩
        · rw [payout_sum_cons, payout_sum_cons]
          show ps + ((m.pool.collateral_denomination - ps) + payout_sum []) =
            m.pool.collateral_denomination
          unfold payout_sum
          simp only [List.foldl_nil]
          omega
        · rw [← hlen, htags]
          rfl
      · -- categorical market
        split at hok
        · cases hok
        rename_i answer_string
        split at hok
        · cases hok
        rename_i index hpos
        cases hok
        intro w hw
        simp only [Option.some.injEq] at hw
        subst hw
        have hidx : index < (flatten_outcome_tags m.outcome_tags).length :=
          position_lt_length hpos
        have hidx2 : index < m.outcome_tags.length := by
          simpa [flatten_outcome_tags] using hidx
        refine ⟨payout_sum_one_hot _ _ _ hidx2, ?_⟩
        simp [hlen]
    · -- invalid outcome
      cases hok
      intro w hw
      simp at hw

end AMM

namespace AMM

lemma valid_scalar_bounds_intro_pos {lt ut : NumberOutcomeTag}
    (hl : lt.negative = false) (hu : ut.negative = false)
    (h : lt.value < ut.value) : valid_scalar_bounds lt ut = true := by
  simp [valid_scalar_bounds, hl, hu, h]

lemma valid_scalar_bounds_intro_neg {lt ut : NumberOutcomeTag}
    (hl : lt.negative = true) (hu : ut.negative = true)
    (hl0 : lt.value ≠ 0) (hu0 : ut.value ≠ 0)
    (h : ut.value < lt.value) : valid_scalar_bounds lt ut = true := by
  simp [valid_scalar_bounds, hl, hu, hl0, hu0, h]

lemma valid_scalar_bounds_intro_mixed {lt ut : NumberOutcomeTag}
    (hl : lt.negative = true) (hu : ut.negative = false)
    (hl0 : lt.value ≠ 0) : valid_scalar_bounds lt ut = true := by
  simp [valid_scalar_bounds, hl, hu, hl0]

lemma create_market_valid {payload : CreateMarketArgs} {now_ms decimals : Nat}
    {m : Market} (hc : create_market payload now_ms (some decimals) = Except.ok m) :
    m = mk_market payload decimals ∧ market_valid m := by
  have hden : 0 < (mk_market payload decimals).pool.collateral_denomination :=
    pow_pos (by norm_num) decimals
  simp only [create_market] at hc
  unfold create_market_validated at hc
  by_cases h1 : payload.outcome_tags.length ≠ payload.outcomes
  · rw [if_pos h1] at hc; cases hc
  rw [if_neg h1] at hc
  have hlen : payload.outcome_tags.length = payload.outcomes := not_not.mp h1
  by_cases h2 : payload.end_time ≤ now_ms
  · rw [if_pos h2] at hc; cases hc
  rw [if_neg h2] at hc
  by_cases h3 : payload.resolution_time < payload.end_time
  · rw [if_pos h3] at hc; cases hc
  rw [if_neg h3] at hc
  by_cases h4 : payload.is_scalar = true
  case neg =>
    rw [if_neg h4] at hc
    cases hc
    exact ⟨rfl, hlen, hden, fun hs => absurd hs h4⟩
  rw [if_pos h4] at hc
  by_cases h5 : payload.scalar_multiplier.isNone = true
  · rw [if_pos h5] at hc; cases hc
  rw [if_neg h5] at hc
  by_cases h6 : payload.outcome_tags.length ≠ 2
  · rw [if_pos h6] at hc; cases hc
  rw [if_neg h6] at hc
  split at hc
  case _ lbt ubt heq =>
    by_cases h7 : (lbt.negative && decide (lbt.value = 0)) = true
    · rw [if_pos h7] at hc; cases hc
    rw [if_neg h7] at hc
    by_cases h8 : (ubt.negative && decide (ubt.value = 0)) = true
    · rw [if_pos h8] at hc; cases hc
    rw [if_neg h8] at hc
    by_cases h9 : (!lbt.negative && !ubt.negative) = true
    · rw [if_pos h9] at hc
      by_cases h10 : lbt.value < ubt.value
      · rw [if_pos h10] at hc
        cases hc
        simp only [Bool.and_eq_true, Bool.not_eq_true'] at h9
        exact ⟨rfl, hlen, hden, fun _ => ⟨lbt, ubt, heq,
          valid_scalar_bounds_intro_pos h9.1 h9.2 h10⟩⟩
      · rw [if_neg h10] at hc; cases hc
    rw [if_neg h9] at hc
    by_cases h11 : (!lbt.negative && ubt.negative) = true
    · rw [if_pos h11] at hc; cases hc
    rw [if_neg h11] at hc
    by_cases h12 : (lbt.negative && ubt.negative) = true
    · rw [if_pos h12] at hc
      by_cases h13 : ubt.value < lbt.value
      · rw [if_pos h13] at hc
        cases hc
        simp only [Bool.and_eq_true] at h12
        simp only [Bool.and_eq_true, decide_eq_true_eq, not_and] at h7 h8
        exact ⟨rfl, hlen, hden, fun _ => ⟨lbt, ubt, heq,
          valid_scalar_bounds_intro_neg h12.1 h12.2 (h7 h12.1) (h8 h12.2) h13⟩⟩
      · rw [if_neg h13] at hc; cases hc
    · rw [if_neg h12] at hc
      cases hc
      have hbl : lbt.negative = true ∧ ubt.negative = false := by
        cases hb1 : lbt.negative <;> cases hb2 : ubt.negative <;>
          simp [hb1, hb2] at h9 h11 h12 ⊢
      simp only [Bool.and_eq_true, decide_eq_true_eq, not_and] at h7
      exact ⟨rfl, hlen, hden, fun _ => ⟨lbt, ubt, heq,
        valid_scalar_bounds_intro_mixed hbl.1 hbl.2 (h7 hbl.1)⟩⟩
  case _ => cases hc

end AMM

namespace AMM

/-- C10: for every scalar market that passed `create_market` validation, the scalar
arithmetic in `set_outcome` is total: after sign normalization the upper bound
strictly exceeds the lower bound (so the division by the range never divides by
zero), the checked computation — in which every `u128` subtraction and division
panics like Rust's — agrees with the unchecked one (so no subtraction underflows),
and both entries of the resulting numerator are at most the collateral
denomination. -/
theorem scalar_arithmetic_total (payload : CreateMarketArgs)
    (now_ms decimals : Nat) (m : Market) (lt ut : NumberOutcomeTag)
    (ai : AnswerNumberType)
    (hc : create_market payload now_ms (some decimals) = Except.ok m)
    (hs : m.is_scalar = true)
    (ht : m.outcome_tags = [OutcomeTag.Number lt, OutcomeTag.Number ut]) :
    (scalar_normalize lt ut ai).1 < (scalar_normalize lt ut ai).2.1 ∧
    scalar_payout_numerator_checked lt ut ai m.pool.collateral_denomination =
      some (scalar_payout_numerator lt ut ai m.pool.collateral_denomination) ∧
    ∀ x ∈ scalar_payout_numerator lt ut ai m.pool.collateral_denomination,
      x ≤ m.pool.collateral_denomination := by
  obtain ⟨-, -, hden, hsc⟩ := create_market_valid hc
  obtain ⟨lt2, ut2, ht2, hv2⟩ := hsc hs
  rw [ht] at ht2
  simp only [List.cons.injEq, OutcomeTag.Number.injEq, and_true] at ht2
  obtain ⟨rfl, rfl⟩ := ht2
  exact scalar_total_aux lt ut ai _ hv2 hden

/-- Witness for `scalar_arithmetic_total`: a concrete valid scalar market (bounds
50 and 100 on a 24-decimal collateral) and the answer 75. -/
theorem scalar_arithmetic_total_witness :
    scalar_payout_numerator_checked { value := 50, multiplier := 1, negative := false }
        { value := 100, multiplier := 1, negative := false }
        { value := 75, multiplier := 1, negative := false }
        (mk_market test_positive_args 24).pool.collateral_denomination =
      some (scalar_payout_numerator { value := 50, multiplier := 1, negative := false }
        { value := 100, multiplier := 1, negative := false }
        { value := 75, multiplier := 1, negative := false }
        (mk_market test_positive_args 24).pool.collateral_denomination) :=
  (scalar_arithmetic_total test_positive_args 0 24 (mk_market test_positive_args 24)
    { value := 50, multiplier := 1, negative := false }
    { value := 100, multiplier := 1, negative := false }
    { value := 75, multiplier := 1, negative := false } rfl rfl rfl).2.1

/-- Witness for `finalized_numerator_sums_to_denomination`: resolving the concrete
YES/NO categorical market with the answer NO yields the one-hot numerator, whose
sum is the collateral denomination and whose length is the outcome count. -/
theorem finalized_numerator_sums_to_denomination_witness :
    payout_sum [0, 1000000000000000000000000] = 1000000000000000000000000 ∧
    ([0, 1000000000000000000000000] : List Nat).length = 2 :=
  (finalized_numerator_sums_to_denomination test_categorical_market
      ⟨rfl, by decide, fun h => absurd h (by decide)⟩).2
    (Outcome.Answer (AnswerType.String "NO")) true
    { test_categorical_market with
      payout_numerator := some [0, 1000000000000000000000000]
      data_request_finalized := true }
    rfl [0, 1000000000000000000000000] rfl

end AMM

namespace AMM

/-- C2 (code bug, failing input): for the mixed-sign scalar market with bounds
(50, negative) and (50, positive) and the oracle answer (10, negative), the code
adds the answer's magnitude to the lower bound instead of its signed value,
producing the shifted answer 60 and the numerator `[0.4·d, 0.6·d]`, not the
`[0.6·d, 0.4·d]` a signed shift (shifted answer 40) would give. -/
theorem mixed_sign_negative_answer_bug :
    scalar_payout_numerator { value := 50, multiplier := 1, negative := true }
        { value := 50, multiplier := 1, negative := false }
        { value := 10, multiplier := 1, negative := true } test_denomination =
      [400000000000000000000000, 600000000000000000000000] ∧
    scalar_payout_numerator { value := 50, multiplier := 1, negative := true }
        { value := 50, multiplier := 1, negative := false }
        { value := 10, multiplier := 1, negative := true } test_denomination ≠
      [600000000000000000000000, 400000000000000000000000] := by
  exact ⟨rfl, by decide⟩

/-- C4 (code bug): `set_outcome` stores the payout numerator and sets
`data_request_finalized` but leaves `finalized` at `false` — although the
repository's own tests (e.g. `valid_categorical_outcome`) assert that the market
is finalized afterwards — while `resolute_market` does set `finalized`. -/
theorem set_outcome_leaves_finalized_false :
    (set_outcome test_categorical_market (Outcome.Answer (AnswerType.String "NO"))
        true).map Market.finalized = Except.ok false ∧
    (set_outcome test_categorical_market (Outcome.Answer (AnswerType.String "NO"))
        true).map Market.payout_numerator =
      Except.ok (some [0, 1000000000000000000000000]) ∧
    (resolute_market { test_categorical_market with data_request_finalized := true }
        none false).map Market.finalized = Except.ok true :=
  ⟨rfl, rfl, rfl⟩

/-- C3 (amended): `buy`, `sell` and `add_liquidity` fail whenever the market is
disabled, finalized, or the current time has reached `end_time`;
`burn_outcome_tokens_redeem_collateral` fails whenever the market is disabled or
finalized but is not gated on `end_time`; `exit_pool` fails whenever the market is
disabled but is gated on neither finalization nor `end_time`; and
`claim_earnings` succeeds only on a finalized market. -/
theorem trading_guards (m : Market) (now_ms : Nat) :
    ((m.enabled = false ∨ m.finalized = true ∨ m.end_time ≤ now_ms) →
      sell_checks false m now_ms ≠ Except.ok () ∧
      buy_checks m now_ms true ≠ Except.ok () ∧
      add_liquidity_checks m now_ms true ≠ Except.ok ()) ∧
    ((m.enabled = false ∨ m.finalized = true) →
      burn_checks false m ≠ Except.ok ()) ∧
    (m.enabled = false → exit_pool_checks false m ≠ Except.ok ()) ∧
    (claim_earnings_checks false m = Except.ok () → m.finalized = true) := by
  refine ⟨?_, ?_, ?_, ?_⟩
  · intro h
    refine ⟨?_, ?_, ?_⟩ <;>
      cases he : m.enabled <;> cases hf : m.finalized <;>
        rcases h with h | h | h <;>
          simp_all [sell_checks, buy_checks, add_liquidity_checks]
  · intro h
    cases he : m.enabled <;> cases hf : m.finalized <;>
      rcases h with h | h <;> simp_all [burn_checks]
  · intro h
    simp [exit_pool_checks, h]
  · intro hok
    cases hf : m.finalized
    · exfalso
      cases he : m.enabled <;>
        simp [claim_earnings_checks, he, hf] at hok
    · rfl

/-- A categorical market whose trading period has ended (used to exhibit the
missing `end_time` gate of `burn_outcome_tokens_redeem_collateral`). -/
def ended_open_market : Market := { test_categorical_market with end_time := 5 }

/-- C3 (counterexample to the claim as stated): `exit_pool`'s assert prefix
passes on an enabled market that is already finalized, and
`burn_outcome_tokens_redeem_collateral`'s assert prefix passes on an enabled,
unfinalized market whose `end_time` has passed. -/
theorem trading_guards_counterexample :
    resolved_market.finalized = true ∧ resolved_market.enabled = true ∧
    exit_pool_checks false resolved_market = Except.ok () ∧
    ended_open_market.enabled = true ∧ ended_open_market.finalized = false ∧
    ended_open_market.end_time ≤ 100 ∧
    burn_checks false ended_open_market = Except.ok () :=
  ⟨rfl, rfl, rfl, rfl, rfl, by decide, rfl⟩

/-- Witness for `trading_guards`: on the concrete finalized market, `sell` and the
burn-redeem operation are rejected. -/
theorem trading_guards_witness :
    sell_checks false resolved_market 0 ≠ Except.ok () ∧
    burn_checks false resolved_market ≠ Except.ok () :=
  ⟨((trading_guards resolved_market 0).1 (Or.inr (Or.inl rfl))).1,
   (trading_guards resolved_market 0).2.1 (Or.inr rfl)⟩

/-- C5 (amended): once a market is finalized, a second resolution through
`resolute_market` always fails, with `ERR_IS_FINALIZED` whenever the market is
enabled; `set_outcome`, by contrast, performs no finalized check (see
`set_outcome_overwrites_finalized`). -/
theorem resolute_after_finalized_fails (m : Market) (pn : Option (List Nat))
    (g : Bool) (h : m.finalized = true) :
    (∃ e, resolute_market m pn g = Except.error e) ∧
    (m.enabled = true →
      resolute_market m pn g = Except.error "ERR_IS_FINALIZED") := by
  by_cases he : m.enabled = true
  · have hres : resolute_market m pn g = Except.error "ERR_IS_FINALIZED" := by
      simp [resolute_market, he, h]
    exact ⟨⟨_, hres⟩, fun _ => hres⟩
  · have he2 : m.enabled = false := by
      cases hb : m.enabled
      · rfl
      · exact absurd hb he
    exact ⟨⟨"ERR_DISABLED_MARKET", by simp [resolute_market, he2]⟩,
      fun h2 => absurd h2 he⟩

/-- C5 (counterexample to the claim as stated): on an already-finalized market the
oracle path `set_outcome` does not fail — it succeeds and overwrites the stored
payout numerator. -/
theorem set_outcome_overwrites_finalized :
    resolved_market.finalized = true ∧
    resolved_market.payout_numerator = some [1000000000000000000000000, 0] ∧
    (set_outcome resolved_market (Outcome.Answer (AnswerType.String "NO"))
        true).map Market.payout_numerator =
      Except.ok (some [0, 1000000000000000000000000]) :=
  ⟨rfl, rfl, rfl⟩

/-- Witness for `resolute_after_finalized_fails` on the concrete finalized
market. -/
theorem resolute_after_finalized_fails_witness :
    resolute_market resolved_market none false =
      Except.error "ERR_IS_FINALIZED" :=
  (resolute_after_finalized_fails resolved_market none false rfl).2 rfl

end AMM

namespace AMM

/-- The both-negative scalar normalization exactly as the specification words it
(section 4.2, both bounds negative): range is the lower magnitude minus the upper
magnitude; an answer more negative than the lower bound normalizes to 0, a
non-negative answer to the full range, and otherwise to the lower magnitude minus
the answer magnitude; the bounds become `[0, range]`. -/
def spec_normalize_both_negative (lb ub ans : Nat) (ans_negative : Bool) :
    Nat × Nat × Nat :=
  let range := lb - ub
  let normalized :=
    if ans_negative && decide (lb < ans) then 0
    else if !ans_negative then range
    else lb - ans
  (0, range, normalized)

/-- C6: for any both-negative scalar market, `set_outcome`'s normalization agrees
with the specification's description, and on the concrete market with bounds
(200, neg) and (100, neg) the answer (201, neg) yields the numerator
`[collateral_denomination, 0]`. -/
theorem both_negative_scalar_resolution (lt ut : NumberOutcomeTag)
    (ai : AnswerNumberType) (hl : lt.negative = true) (hu : ut.negative = true) :
    scalar_normalize lt ut ai =
      spec_normalize_both_negative lt.value ut.value ai.value ai.negative ∧
    (set_outcome test_both_negative_market
        (Outcome.Answer (AnswerType.Number
          { value := 201, multiplier := 1, negative := true })) true).map
      Market.payout_numerator =
      Except.ok (some [1000000000000000000000000, 0]) := by
  constructor
  · simp [scalar_normalize, spec_normalize_both_negative, hl, hu]
  · rfl

/-- The non-negative-bounds scalar payout exactly as the specification words it
(section 4.2): a negative answer is floored to the lower bound, the answer is
clamped into `[lb, ub]`, and the numerator is
`[payoutShort, d − payoutShort]` with
`payoutShort = (ub − ans) * d / (ub − lb)` under floor division. -/
def spec_payout_non_negative_bounds (lb ub ans : Nat) (ans_negative : Bool)
    (d : Nat) : List Nat :=
  let floored := if ans_negative then lb else ans
  let clamped := Nat.max lb (Nat.min ub floored)
  let range := ub - lb
  let payout_short := (ub - clamped) * d / range
  [payout_short, d - payout_short]

/-- C7: for any scalar market with both bounds non-negative (and valid bounds),
`set_outcome`'s scalar computation agrees with the specification's formula, and on
the concrete market with bounds (0, pos) and (50, pos) the out-of-range answer
(55, pos) yields the numerator `[0, collateral_denomination]`. -/
theorem non_negative_scalar_resolution (lt ut : NumberOutcomeTag)
    (ai : AnswerNumberType) (d : Nat) (hl : lt.negative = false)
    (hu : ut.negative = false) (hb : lt.value < ut.value) (hd : 0 < d) :
    scalar_payout_numerator lt ut ai d =
      spec_payout_non_negative_bounds lt.value ut.value ai.value ai.negative d ∧
    (set_outcome test_positive_market
        (Outcome.Answer (AnswerType.Number
          { value := 55, multiplier := 1, negative := false })) true).map
      Market.payout_numerator =
      Except.ok (some [0, 1000000000000000000000000]) := by
  refine ⟨?_, rfl⟩
  have hclamp : ∀ v : Nat, clamp_u128 v lt.value ut.value =
      Nat.max lt.value (Nat.min ut.value v) := by
    intro v
    simp only [clamp_u128, Nat.max_def, Nat.min_def]
    split_ifs <;> omega
  have key : ∀ x : Nat, scalar_tail (lt.value, ut.value, x) d =
      [(ut.value - Nat.max lt.value (Nat.min ut.value x)) * d / (ut.value - lt.value),
       d - (ut.value - Nat.max lt.value (Nat.min ut.value x)) * d /
         (ut.value - lt.value)] := by
    intro x
    simp only [scalar_tail, complex_div_u128, complex_mul_u128]
    rw [hclamp x, Nat.mul_div_cancel _ hd]
  cases han : ai.negative
  · have hnorm : scalar_normalize lt ut ai = (lt.value, ut.value, ai.value) := by
      simp [scalar_normalize, hl, hu, han]
    rw [scalar_payout_numerator, hnorm, key]
    simp [spec_payout_non_negative_bounds, han]
  · have hnorm : scalar_normalize lt ut ai = (lt.value, ut.value, lt.value) := by
      simp [scalar_normalize, hl, hu, han]
    rw [scalar_payout_numerator, hnorm, key]
    simp [spec_payout_non_negative_bounds, han]

/-- C8: on a categorical market, `set_outcome` with a string answer stores the
one-hot numerator — the collateral denomination at the first tag index whose label
matches the answer and 0 at every other index — and fails with
`ERR_OUTCOME_NOT_IN_TAGS` when no tag matches. -/
theorem categorical_resolution_one_hot (m : Market) (s : String)
    (hsc : m.is_scalar = false) :
    (∀ i, position (fun tag => tag == s) (flatten_outcome_tags m.outcome_tags) =
        some i →
      ∃ m2, set_outcome m (Outcome.Answer (AnswerType.String s)) true =
          Except.ok m2 ∧
        ∃ pn, m2.payout_numerator = some pn ∧
          pn.length = m.outcome_tags.length ∧
          pn[i]? = some m.pool.collateral_denomination ∧
          ∀ j, j < pn.length → j ≠ i → pn[j]? = some 0) ∧
    (position (fun tag => tag == s) (flatten_outcome_tags m.outcome_tags) = none →
      set_outcome m (Outcome.Answer (AnswerType.String s)) true =
        Except.error "ERR_OUTCOME_NOT_IN_TAGS") := by
  constructor
  · intro i hpos
    have hlt : i < (flatten_outcome_tags m.outcome_tags).length :=
      position_lt_length hpos
    have hlt2 : i < m.outcome_tags.length := by
      simpa [flatten_outcome_tags] using hlt
    refine ⟨{ m with
        payout_numerator := some ((List.replicate m.outcome_tags.length 0).set i
          m.pool.collateral_denomination)
        data_request_finalized := true }, ?_, _, rfl, ?_, ?_, ?_⟩
    · simp [set_outcome, hsc, hpos]
    · simp
    · exact one_hot_get_self _ _ _ hlt2
    · intro j hj hne
      refine one_hot_get_other _ _ _ _ ?_ hne
      simpa using hj
  · intro hpos
    simp [set_outcome, hsc, hpos]

/-- Witness for `categorical_resolution_one_hot`: the concrete YES/NO market with
the answer NO matched at index 1. -/
theorem categorical_resolution_one_hot_witness :
    ∃ m2, set_outcome test_categorical_market
        (Outcome.Answer (AnswerType.String "NO")) true = Except.ok m2 ∧
      ∃ pn, m2.payout_numerator = some pn ∧
        pn.length = test_categorical_market.outcome_tags.length ∧
        pn[1]? = some test_categorical_market.pool.collateral_denomination ∧
        ∀ j, j < pn.length → j ≠ 1 → pn[j]? = some 0 :=
  (categorical_resolution_one_hot test_categorical_market "NO" rfl).1 1 rfl

/-- C9: on an enabled, unfinalized market, `resolute_market` with a payout vector
requires governance authority; with governance it succeeds exactly when the
vector sums to the pool's collateral denomination and has one entry per outcome;
and with no vector it succeeds exactly when a prior oracle answer submission has
set `data_request_finalized`. -/
theorem resolute_market_validation (m : Market) (v : List Nat) (g : Bool)
    (he : m.enabled = true) (hf : m.finalized = false) :
    (resolute_market m (some v) false = Except.error "ERR_NO_GOVERNANCE") ∧
    ((∃ m2, resolute_market m (some v) true = Except.ok m2) ↔
      payout_sum v = m.pool.collateral_denomination ∧
        v.length = m.pool.outcomes) ∧
    ((∃ m2, resolute_market m none g = Except.ok m2) ↔
      m.data_request_finalized = true) := by
  refine ⟨?_, ?_, ?_⟩
  · simp [resolute_market, he, hf]
  · constructor
    · rintro ⟨m2, hok⟩
      simp only [resolute_market, he, hf] at hok
      by_cases h1 : payout_sum v = m.pool.collateral_denomination
      · by_cases h2 : v.length = m.pool.outcomes
        · exact ⟨h1, h2⟩
        · simp [h1, h2] at hok
      · simp [h1] at hok
    · rintro ⟨h1, h2⟩
      refine ⟨{ m with payout_numerator := some v, finalized := true }, ?_⟩
      simp [resolute_market, he, hf, h1, h2]
  · cases hd : m.data_request_finalized <;>
      simp [resolute_market, he, hf, hd]

/-- Witness for `resolute_market_validation`: on the concrete enabled unfinalized
market, a governance payout vector supplied by a non-governance caller is
rejected. -/
theorem resolute_market_validation_witness :
    resolute_market test_categorical_market
        (some [1000000000000000000000000, 0]) false =
      Except.error "ERR_NO_GOVERNANCE" :=
  (resolute_market_validation test_categorical_market
    [1000000000000000000000000, 0] false rfl rfl).1

end AMM

namespace AMM

/-- Witness for `both_negative_scalar_resolution` at the repository test input:
bounds (200, neg) and (100, neg), answer (175, neg). -/
theorem both_negative_scalar_resolution_witness :
    scalar_normalize { value := 200, multiplier := 1, negative := true }
        { value := 100, multiplier := 1, negative := true }
        { value := 175, multiplier := 1, negative := true } =
      spec_normalize_both_negative 200 100 175 true :=
  (both_negative_scalar_resolution
    { value := 200, multiplier := 1, negative := true }
    { value := 100, multiplier := 1, negative := true }
    { value := 175, multiplier := 1, negative := true } rfl rfl).1

/-- Witness for `non_negative_scalar_resolution` at the repository test input:
bounds (0, pos) and (50, pos), answer (55, pos). -/
theorem non_negative_scalar_resolution_witness :
    scalar_payout_numerator { value := 0, multiplier := 1, negative := false }
        { value := 50, multiplier := 1, negative := false }
        { value := 55, multiplier := 1, negative := false } test_denomination =
      spec_payout_non_negative_bounds 0 50 55 false test_denomination :=
  (non_negative_scalar_resolution
    { value := 0, multiplier := 1, negative := false }
    { value := 50, multiplier := 1, negative := false }
    { value := 55, multiplier := 1, negative := false } test_denomination rfl rfl
    (by decide) (by decide)).1

end AMM
